import Mathlib

/-!
Verification of the rendering core of the `inlyne` document viewer
(`src/renderer.rs`, `src/text.rs`) via a shallow embedding in Lean 4.

Modelling conventions:
* `f32` values are embedded as `ℚ`.  Screen dimensions are assumed positive
  where stated.  The single `f32::INFINITY` used by the source (the unbounded
  wrap height passed to the glyph service) is embedded as `(⊤ : WithTop ℚ)`:
  wrap bounds are pairs `ℚ × WithTop ℚ` (finite width, possibly unbounded
  height).
* The source appends triangles to `self.lyon_buffer`, queues glyph sections on
  `self.glyph_brush` and appends to `self.selection_text`; all three are
  append-only during a frame, so the embedding returns the appended sequences
  (`Output`) instead of threading mutable state.  One tessellated primitive
  (`draw_rectangle`, `stroke_rectangle`, `draw_tick`, `draw_hidden_marker`)
  becomes one `MeshCmd`.
* The external glyph-shaping/measurement service (`wgpu_glyph::GlyphBrush`) and
  the parts of the crate not present under `src/` (`utils.rs`, `positioner.rs`,
  `table.rs`, the `TextBox` method set beyond `text.rs`) are modelled as
  oracles (`Measurer`) or, where the spec pins down their shape, as
  definitions marked `Modelled from the spec:`.
* Fallible code (`anyhow::Result`, `Option::unwrap`) is embedded as
  `Except String`: `.context("Element not positioned")?` becomes
  `.error ("Element not positioned")`, a panicking `unwrap` becomes
  `.error ("unwrap")`.
-/

/-- RGBA color, as the source's `[f32; 4]`. -/
abbrev Color : Type := ℚ × ℚ × ℚ × ℚ

/-- Modelled from the spec: `utils::Rect` (not under `src/`) — a rectangle
with `pos`/`size`, supporting `new`, `from_min_max` and `max()`. -/
structure Rect where
  pos : ℚ × ℚ
  size : ℚ × ℚ
deriving DecidableEq, Repr

namespace Rect

/-- Source `Rect::new(pos, size)`. -/
def new (pos size : ℚ × ℚ) : Rect := ⟨pos, size⟩

/-- Source `Rect::from_min_max(min, max)`: position `min`, size `max - min`. -/
def from_min_max (mn mx : ℚ × ℚ) : Rect :=
  ⟨mn, (mx.1 - mn.1, mx.2 - mn.2)⟩

/-- Source `Rect::max()`: the bottom-right corner `pos + size`. -/
def max (r : Rect) : ℚ × ℚ := (r.pos.1 + r.size.1, r.pos.2 + r.size.2)

/-- Width of a rectangle, as `ab_glyph`'s `bounds.width()`. -/
def width (r : Rect) : ℚ := r.size.1

/-- Height of a rectangle, as `ab_glyph`'s `bounds.height()`. -/
def height (r : Rect) : ℚ := r.size.2

end Rect

/-- Modelled from the spec: `positioner::DEFAULT_MARGIN` (not under `src/`);
the fixed document margin constant.  The claims hold for any value. -/
def DEFAULT_MARGIN : ℚ := 100

/-- Modelled from the spec: `table::TABLE_COL_GAP` (not under `src/`). -/
def TABLE_COL_GAP : ℚ := 50

/-- Modelled from the spec: `table::TABLE_ROW_GAP` (not under `src/`). -/
def TABLE_ROW_GAP : ℚ := 50

/-- Source `renderer::point`: translates a point from pixel coordinates to
wgpu normalized device coordinates for screen size `screen`. -/
def point (x y : ℚ) (screen : ℚ × ℚ) : ℚ × ℚ :=
  let scale_x := 2 / screen.1
  let scale_y := 2 / screen.2
  let new_x := -1 + x * scale_x
  let new_y := 1 - y * scale_y
  (new_x, new_y)

/-- Source `Renderer::set_scroll_y`: the stored scroll offset after a request,
given the positioner's `reserved_height` and the screen height;
`scroll_y.min(reserved_height - screen_height).max(0.)`. -/
def set_scroll_y (scroll_y reserved_height screen_height : ℚ) : ℚ :=
  Max.max (Min.min scroll_y (reserved_height - screen_height)) 0

/-- Source `text::Text`: one styled run. -/
structure Text where
  text : String
  size : ℚ
  color : Color
  link : Option String
  is_bold : Bool
  font : Nat
deriving DecidableEq, Repr

/-- The data of a `wgpu_glyph::Text` produced by `Text::glyph_text`. -/
structure GlyphText where
  text : String
  scale : ℚ
  color : Color
  font_id : Nat
deriving DecidableEq, Repr

/-- Source `Text::glyph_text`: bold picks font id `font * 2 + 1`, regular
`font * 2`; the scale is `size * hidpi_scale`. -/
def Text.glyph_text (t : Text) (hidpi_scale : ℚ) : GlyphText :=
  { text := t.text
    scale := t.size * hidpi_scale
    color := t.color
    font_id := if t.is_bold then t.font * 2 + 1 else t.font * 2 }

/-- The data of a `wgpu_glyph::Section` built by `TextBox::glyph_section`:
a screen position, wrap bounds (finite width, possibly unbounded height) and
the styled runs. -/
structure GlyphSection where
  screen_position : ℚ × ℚ
  bounds : ℚ × WithTop ℚ
  text : List GlyphText
deriving DecidableEq, Repr

/-- Source `text::TextBox`: the `texts` runs and `indent` are the fields of
`src/text.rs`; the flag fields are the ones `src/renderer.rs` reads on the
crate's full `TextBox` (`is_code_block`, `is_quote_block` with nesting depth,
`is_checkbox` with checked state, `background_color`), modelled from that
usage. -/
structure TextBox where
  indent : ℚ
  texts : List Text
  is_code_block : Bool
  is_quote_block : Option Nat
  is_checkbox : Option Bool
  background_color : Option Color
deriving DecidableEq, Repr

/-- Source `TextBox::glyph_section`. -/
def TextBox.glyph_section (tb : TextBox) (screen_position : ℚ × ℚ)
    (bounds : ℚ × WithTop ℚ) (hidpi_scale : ℚ) : GlyphSection :=
  { screen_position := screen_position
    bounds := bounds
    text := tb.texts.map (fun t => t.glyph_text hidpi_scale) }

/-- Source `TextBox::size` (src/text.rs lines 74–91): `(0, 0)` for an empty
run list, otherwise the external glyph service's `glyph_bounds` result (the
service is the `glyph_bounds` oracle argument), defaulting to `(0, 0)`. -/
def TextBox.size (glyph_bounds : GlyphSection → Option Rect) (tb : TextBox)
    (screen_position : ℚ × ℚ) (bounds : ℚ × WithTop ℚ) (hidpi_scale : ℚ) :
    ℚ × ℚ :=
  if tb.texts.isEmpty then (0, 0)
  else
    match glyph_bounds (tb.glyph_section screen_position bounds hidpi_scale) with
    | some b => (b.width, b.height)
    | none => (0, 0)

/-- Modelled from the spec: `table::Table` (not under `src/`) — a header row
of `TextBox`es plus body rows; a sparse row is one shorter than the column
count (`row.get(col)` is `None` past its end). -/
structure Table where
  headers : List TextBox
  rows : List (List TextBox)
deriving DecidableEq, Repr

/-- Modelled from the spec: `Image` (not under `src/`) — carries a lazily
created GPU binding (`bind_group`), abstracted to an identifier. -/
structure Image where
  image_id : Nat
  bind_group : Option Nat
deriving DecidableEq, Repr

/-- Modelled from the spec: `Image::create_bind_group` (not under `src/`) —
realizes the GPU binding for the image and caches it on the element. -/
def Image.create_bind_group (i : Image) : Image :=
  { i with bind_group := some i.image_id }

/-- Source `Spacer` as read by the renderer: a visibility flag (the source
field is spelled `visibile`). -/
structure Spacer where
  visibile : Bool
deriving DecidableEq, Repr

/-- Modelled from the spec: `utils::Selection` (not under `src/`) — an active
text-selection span in document coordinates; the renderer only passes it
through to the glyph service. -/
structure Selection where
  start_pos : ℚ × ℚ
  end_pos : ℚ × ℚ
deriving DecidableEq, Repr

/-- The theme palette fields read by the renderer. -/
structure Theme where
  background_color : Color
  text_color : Color
  select_color : Color
  checkbox_color : Color
  code_block_color : Color
  quote_block_color : Color
deriving DecidableEq, Repr

/-- Oracle bundle for the external glyph-shaping/measurement service and the
`TextBox`/`Table` measurement methods that live outside `src/`
(`render_lines`, `render_selection`, and the row/column measurements used by
`Table::row_heights` / `Table::column_widths`). -/
structure Measurer where
  render_lines : TextBox → (ℚ × ℚ) → (ℚ × WithTop ℚ) → ℚ →
    List ((ℚ × ℚ) × (ℚ × ℚ))
  render_selection : TextBox → (ℚ × ℚ) → (ℚ × WithTop ℚ) → ℚ → Selection →
    List Rect × String
  measure_row : List TextBox → (ℚ × ℚ) → (ℚ × WithTop ℚ) → ℚ → ℚ
  measure_col : Table → Nat → (ℚ × ℚ) → (ℚ × WithTop ℚ) → ℚ → ℚ

/-- Modelled from the spec: `Table::row_heights` (not under `src/`) — the
header row's measured height first, then one measured height per body row. -/
def Table.row_heights (t : Table) (m : Measurer) (pos : ℚ × ℚ)
    (bounds : ℚ × WithTop ℚ) (zoom : ℚ) : List ℚ :=
  m.measure_row t.headers pos bounds zoom ::
    t.rows.map (fun row => m.measure_row row pos bounds zoom)

/-- Modelled from the spec: `Table::column_widths` (not under `src/`) — one
measured width per column, the columns being indexed by the header row. -/
def Table.column_widths (t : Table) (m : Measurer) (pos : ℚ × ℚ)
    (bounds : ℚ × WithTop ℚ) (zoom : ℚ) : List ℚ :=
  (List.range t.headers.length).map (fun col => m.measure_col t col pos bounds zoom)

mutual

/-- Source `Element`: the closed variant over the six element kinds.  A `Row`
carries its child list, a `Section` its optional summary, body list and the
shared `hidden` flag (a `Rc<RefCell<bool>>` in the source, read-only during a
frame, embedded as `Bool`). -/
inductive Element where
  | TextBox (text_box : TextBox) : Element
  | Table (table : Table) : Element
  | Image (image : Image) : Element
  | Spacer (spacer : Spacer) : Element
  | Row (elements : List Positioned) : Element
  | Section (summary : Option Positioned) (elements : List Positioned)
      (hidden : Bool) : Element

/-- Source `Positioned<Element>`: an element paired with its optional bounds
from the positioner. -/
inductive Positioned where
  | mk (inner : Element) (bounds : Option Rect) : Positioned

end

/-- Source `Positioned::inner`. -/
def Positioned.inner : Positioned → Element
  | .mk i _ => i

/-- Source `Positioned::bounds`. -/
def Positioned.bounds : Positioned → Option Rect
  | .mk _ b => b

/-- The read-only slice of `Renderer` state consulted by one frame's walk:
`screen_size` and `reserved_height` come from the positioner, the rest are
the `Renderer` fields of the same names; `measurer` stands for the
measurement side of `glyph_brush` plus the external `TextBox` methods. -/
structure Renderer where
  screen_size : ℚ × ℚ
  scroll_y : ℚ
  hidpi_scale : ℚ
  zoom : ℚ
  theme : Theme
  selection : Option Selection
  reserved_height : ℚ
  measurer : Measurer

/-- Source `Renderer::screen_height`. -/
def Renderer.screen_height (c : Renderer) : ℚ := c.screen_size.2

/-- One tessellated primitive appended to `self.lyon_buffer`:
`fillRect` for `draw_rectangle` (corners already transformed by `point`),
`strokeRect` for `stroke_rectangle` (transform applied per stroke vertex, so
the untransformed rect is recorded), `tick` for `draw_tick`, and `triangle`
for `draw_hidden_marker` (its three `point`-transformed corners). -/
inductive MeshCmd where
  | fillRect (mn mx : ℚ × ℚ) (color : Color) : MeshCmd
  | strokeRect (r : Rect) (color : Color) (width : ℚ) : MeshCmd
  | tick (pos : ℚ × ℚ) (box_size : ℚ) (color : Color) (width : ℚ) : MeshCmd
  | triangle (p1 p2 p3 : ℚ × ℚ) (color : Color) : MeshCmd
deriving DecidableEq, Repr

/-- Whether a mesh command is a filled rectangle. -/
def MeshCmd.isFillRect : MeshCmd → Bool
  | .fillRect .. => true
  | _ => false

/-- Whether a mesh command is a checkmark tick polyline. -/
def MeshCmd.isTick : MeshCmd → Bool
  | .tick .. => true
  | _ => false

/-- Whether a mesh command is a stroked rectangle. -/
def MeshCmd.isStrokeRect : MeshCmd → Bool
  | .strokeRect .. => true
  | _ => false

/-- The per-frame append-only accumulators: the lyon mesh, the glyph queue
and the accumulated selection text. -/
structure Output where
  mesh : List MeshCmd
  queue : List GlyphSection
  selection_text : String
deriving DecidableEq, Repr

/-- The empty accumulator state. -/
def Output.empty : Output := ⟨[], [], ""⟩

instance : Append Output :=
  ⟨fun a b => ⟨a.mesh ++ b.mesh, a.queue ++ b.queue,
    a.selection_text ++ b.selection_text⟩⟩

@[simp]
theorem Output.append_def (a b : Output) :
    a ++ b = ⟨a.mesh ++ b.mesh, a.queue ++ b.queue,
      a.selection_text ++ b.selection_text⟩ := rfl

@[simp]
theorem Output.empty_def : Output.empty = ⟨[], [], ""⟩ := rfl

theorem Output.empty_append (a : Output) : Output.empty ++ a = a := by
  cases a; simp

theorem Output.append_empty (a : Output) : a ++ Output.empty = a := by
  cases a; simp

theorem Output.append_assoc (a b c : Output) :
    a ++ b ++ c = a ++ (b ++ c) := by
  simp [String.append_assoc]

/-- An output holding a single mesh command. -/
def Output.ofMesh (cmd : MeshCmd) : Output := ⟨[cmd], [], ""⟩

/-- An output holding a single queued glyph section. -/
def Output.ofQueue (s : GlyphSection) : Output := ⟨[], [s], ""⟩

@[simp]
theorem Output.ofMesh_def (cmd : MeshCmd) : Output.ofMesh cmd = ⟨[cmd], [], ""⟩ := rfl

@[simp]
theorem Output.ofQueue_def (s : GlyphSection) : Output.ofQueue s = ⟨[], [s], ""⟩ := rfl

/-- Source `Renderer::draw_rectangle`: tessellates the filled rectangle with
both corners sent through `point`. -/
def draw_rectangle (c : Renderer) (rect : Rect) (color : Color) : MeshCmd :=
  .fillRect (point rect.pos.1 rect.pos.2 c.screen_size)
    (point (rect.max).1 (rect.max).2 c.screen_size) color

/-- Source `Renderer::stroke_rectangle`: tessellates the outline; stroke
vertices are transformed individually, so the untransformed rect is the
recorded datum. -/
def stroke_rectangle (rect : Rect) (color : Color) (width : ℚ) : MeshCmd :=
  .strokeRect rect color width

/-- Source `Renderer::draw_tick`: the two-segment checkmark polyline, fully
determined by its anchor, box size, color and stroke width. -/
def draw_tick (pos : ℚ × ℚ) (box_size : ℚ) (color : Color) (width : ℚ) :
    MeshCmd :=
  .tick pos box_size color width

/-- Source `Renderer::draw_hidden_marker`: a filled 3-point chevron, pointing
right when `hidden`, down otherwise; corners transformed by `point`. -/
def draw_hidden_marker (c : Renderer) (pos : ℚ × ℚ) (size : ℚ) (color : Color)
    (hidden : Bool) : MeshCmd :=
  if hidden then
    .triangle (point pos.1 pos.2 c.screen_size)
      (point (pos.1 - size) (pos.2 + size) c.screen_size)
      (point (pos.1 - size) (pos.2 - size) c.screen_size) color
  else
    .triangle (point pos.1 (pos.2 - size / 2) c.screen_size)
      (point (pos.1 - size * 2) (pos.2 - size / 2) c.screen_size)
      (point (pos.1 - size) (pos.2 + size / 2) c.screen_size) color

/-- Source `Renderer::draw_scrollbar`: the thumb rectangle on the right
margin, sized and offset by `reserved_height`, in the fixed grey
`[0.3, 0.3, 0.3, 1.0]`. -/
def draw_scrollbar (c : Renderer) : MeshCmd :=
  let height := c.screen_size.2 / c.reserved_height * c.screen_size.2
  draw_rectangle c
    (Rect.new
      (c.screen_size.1 - DEFAULT_MARGIN / 4,
        c.scroll_y / c.reserved_height * c.screen_size.2)
      (DEFAULT_MARGIN / 4, height))
    (3/10, 3/10, 3/10, 1)

/-- The selection block repeated at renderer.rs lines 294–312, 343–361 and
393–412: under an active selection, call the external `render_selection`,
append the returned plain text to `selection_text`, and draw one highlight
rectangle (shifted by `scroll_y`, in the theme's select color) per returned
rect.  `qpos` is the position the text was queued at. -/
def selection_output (c : Renderer) (tb : TextBox) (qpos : ℚ × ℚ)
    (bounds : ℚ × WithTop ℚ) : Output :=
  match c.selection with
  | none => Output.empty
  | some sel =>
    let rs := c.measurer.render_selection tb qpos bounds c.zoom sel
    ⟨rs.1.map (fun rect =>
        draw_rectangle c
          (Rect.from_min_max (rect.pos.1, rect.pos.2 - c.scroll_y)
            ((rect.max).1, (rect.max).2 - c.scroll_y))
          c.theme.select_color),
      [], rs.2⟩

/-- The wrap bounds of a text box at `pos` (renderer.rs lines 201–204):
available width clamped to zero, unbounded height. -/
def text_box_bounds (c : Renderer) (pos : ℚ × ℚ) : ℚ × WithTop ℚ :=
  (Max.max (c.screen_size.1 - pos.1 - DEFAULT_MARGIN) 0, ⊤)

/-- The code-block / quote-block background rectangle (renderer.rs lines
207–227): drawn when the box is a code or quote block, with the override
color if set, suppressed when its left edge would start past the right
margin. -/
def code_quote_bg_output (c : Renderer) (pos size : ℚ × ℚ) (tb : TextBox) :
    Output :=
  let screen := c.screen_size
  let scrolled : ℚ × ℚ := (pos.1, pos.2 - c.scroll_y)
  let bounds := text_box_bounds c pos
  if tb.is_code_block || tb.is_quote_block.isSome then
    let color :=
      match tb.background_color with
      | some bg_color => bg_color
      | none =>
        if tb.is_code_block then c.theme.code_block_color
        else c.theme.quote_block_color
    let mn0 : ℚ × ℚ := (scrolled.1 - 10, scrolled.2)
    let mx : ℚ × ℚ :=
      (Min.min (mn0.1 + bounds.1 + 10) (screen.1 - DEFAULT_MARGIN),
        mn0.2 + size.2 + 5 * c.hidpi_scale * c.zoom)
    let mn : ℚ × ℚ :=
      match tb.is_quote_block with
      | some nest => (mn0.1 - ((nest - 1 : ℕ) : ℚ) * DEFAULT_MARGIN / 2, mn0.2)
      | none => mn0
    if mn.1 < screen.1 - DEFAULT_MARGIN then
      Output.ofMesh (draw_rectangle c (Rect.from_min_max mn mx) color)
    else Output.empty
  else Output.empty

/-- The quote-nesting indent bars (renderer.rs lines 228–249): one bar per
nesting level, in the theme's selection color. -/
def quote_bars_output (c : Renderer) (pos size : ℚ × ℚ) (tb : TextBox) :
    Output :=
  let screen := c.screen_size
  let scrolled : ℚ × ℚ := (pos.1, pos.2 - c.scroll_y)
  match tb.is_quote_block with
  | some nest =>
    ⟨(List.range nest).map (fun n =>
        let nest_indent : ℚ := (n : ℚ) * DEFAULT_MARGIN / 2
        let mn : ℚ × ℚ :=
          (Min.min (scrolled.1 - 10 - 5 * c.hidpi_scale * c.zoom - nest_indent)
            (screen.1 - DEFAULT_MARGIN), scrolled.2)
        let mx : ℚ × ℚ :=
          (Min.min (scrolled.1 - 10 - nest_indent) (screen.1 - DEFAULT_MARGIN),
            mn.2 + size.2 + 5 * c.hidpi_scale * c.zoom)
        draw_rectangle c (Rect.from_min_max mn mx) c.theme.select_color),
      [], ""⟩
  | none => Output.empty

/-- The checkbox decoration (renderer.rs lines 250–277): the box square is
sized by the first run's font size (default 16) times the compound scale
times `0.75`, vertically centered; a checked box draws the fill then the
tick, and the border is always stroked; the whole decoration is suppressed
when the square's right edge is not left of the right margin. -/
def checkbox_output (c : Renderer) (pos size : ℚ × ℚ) (tb : TextBox) :
    Output :=
  let screen := c.screen_size
  let scrolled : ℚ × ℚ := (pos.1, pos.2 - c.scroll_y)
  match tb.is_checkbox with
  | some is_checked =>
    let box_size :=
      (tb.texts.head?.map Text.size).getD 16 * c.hidpi_scale * c.zoom * (3/4)
    let mn : ℚ × ℚ :=
      (scrolled.1 - box_size - 10, scrolled.2 + size.2 / 2 - box_size / 2)
    let mx : ℚ × ℚ :=
      (scrolled.1 - 10, scrolled.2 + size.2 / 2 + box_size / 2)
    if mx.1 < screen.1 - DEFAULT_MARGIN then
      (if is_checked then
        ⟨[draw_rectangle c (Rect.from_min_max mn mx) c.theme.checkbox_color,
          draw_tick mn box_size c.theme.text_color 4], [], ""⟩
      else Output.empty) ++
        Output.ofMesh
          (stroke_rectangle (Rect.from_min_max mn mx) c.theme.text_color 2)
    else Output.empty
  | none => Output.empty

/-- The per-line underline bars (renderer.rs lines 278–293): one thin
text-color rectangle per line returned by the external `render_lines`. -/
def underlines_output (c : Renderer) (pos size : ℚ × ℚ) (tb : TextBox) :
    Output :=
  let screen := c.screen_size
  let scrolled : ℚ × ℚ := (pos.1, pos.2 - c.scroll_y)
  let bounds := text_box_bounds c pos
  ⟨(c.measurer.render_lines tb scrolled bounds c.zoom).map (fun line =>
      let mn : ℚ × ℚ :=
        (Max.max (Min.min line.1.1 (screen.1 - DEFAULT_MARGIN)) pos.1,
          line.1.2)
      let mx : ℚ × ℚ :=
        (Max.max (Min.min line.2.1 (screen.1 - DEFAULT_MARGIN)) pos.1,
          line.2.2 + 2 * c.hidpi_scale * c.zoom)
      draw_rectangle c (Rect.from_min_max mn mx) c.theme.text_color),
    [], ""⟩

/-- The `Element::TextBox` arm of `render_elements` (renderer.rs lines
200–313), in source order: queue the glyph section, code/quote background,
quote indent bars, checkbox decoration, per-line underline bars, selection
handling. -/
def render_text_box (c : Renderer) (pos size : ℚ × ℚ) (tb : TextBox) :
    Output :=
  Output.ofQueue (tb.glyph_section pos (text_box_bounds c pos) c.zoom) ++
    code_quote_bg_output c pos size tb ++
    quote_bars_output c pos size tb ++
    checkbox_output c pos size tb ++
    underlines_output c pos size tb ++
    selection_output c tb pos (text_box_bounds c pos)

/-- A table divider rectangle (renderer.rs lines 365–377 and 418–431): spans
`x` from the table's scrolled origin, thickness `3 * hidpi_scale * zoom`,
clipped to the right margin. -/
def table_divider (c : Renderer) (scrolled : ℚ × ℚ) (x y : ℚ)
    (color : Color) : MeshCmd :=
  let screen := c.screen_size
  let mn : ℚ × ℚ :=
    (Min.min scrolled.1 (screen.1 - DEFAULT_MARGIN), scrolled.2 + y)
  let mx : ℚ × ℚ :=
    (Min.min (Max.max (scrolled.1 + x) scrolled.1) (screen.1 - DEFAULT_MARGIN),
      scrolled.2 + y + 3 * c.hidpi_scale * c.zoom)
  draw_rectangle c (Rect.from_min_max mn mx) color

/-- The header loop of the `Element::Table` arm (renderer.rs lines 331–363):
walks the column widths left to right, queueing `table.headers[col]`
(`.unwrap()` on a missing header becomes an error) and handling its
selection; returns the accumulated output together with the final `x`
offset. -/
def header_loop (c : Renderer) (t : Table) (pos : ℚ × ℚ) :
    List ℚ → Nat → ℚ → Except String (Output × ℚ)
  | [], _, x => .ok (Output.empty, x)
  | width :: ws, col, x =>
    match t.headers.get? col with
    | none => .error ("unwrap")
    | some tb =>
      let screen := c.screen_size
      let bounds : ℚ × WithTop ℚ :=
        (Min.min (screen.1 - pos.1 - x - DEFAULT_MARGIN)
          (screen.1 - DEFAULT_MARGIN), ⊤)
      let here :=
        Output.ofQueue (tb.glyph_section (pos.1 + x, pos.2) bounds c.zoom) ++
          selection_output c tb (pos.1 + x, pos.2) bounds
      match header_loop c t pos ws (col + 1) (x + width + TABLE_COL_GAP) with
      | .ok (o, xf) => .ok (here ++ o, xf)
      | .error e => .error e

/-- The cell loop of one table body row (renderer.rs lines 382–416): walks
the column widths; a cell present at `(rowIdx, col)` is queued and its
selection handled, a missing row or cell is skipped; returns the accumulated
output and the final `x` offset. -/
def cell_loop (c : Renderer) (t : Table) (pos : ℚ × ℚ) (rowIdx : Nat)
    (y : ℚ) : List ℚ → Nat → ℚ → Output × ℚ
  | [], _, x => (Output.empty, x)
  | width :: ws, col, x =>
    let here : Output :=
      match t.rows.get? rowIdx with
      | some row =>
        match row.get? col with
        | some tb =>
          let bounds : ℚ × WithTop ℚ :=
            (c.screen_size.1 - pos.1 - x - DEFAULT_MARGIN, ⊤)
          Output.ofQueue (tb.glyph_section (pos.1 + x, pos.2 + y) bounds c.zoom) ++
            selection_output c tb (pos.1 + x, pos.2 + y) bounds
        | none => Output.empty
      | none => Output.empty
    let rest := cell_loop c t pos rowIdx y ws (col + 1) (x + width + TABLE_COL_GAP)
    (here ++ rest.1, rest.2)

/-- The body-row loop of the `Element::Table` arm (renderer.rs lines
380–433): for each remaining row height, run the cell loop, advance `y` by
`height + TABLE_COL_GAP / 2`, draw the row divider in the code-block color,
then advance `y` by `TABLE_ROW_GAP / 2`. -/
def row_loop (c : Renderer) (t : Table) (pos scrolled : ℚ × ℚ)
    (column_widths : List ℚ) : List ℚ → Nat → ℚ → Output
  | [], _, _ => Output.empty
  | height :: hs, rowIdx, y =>
    let cells := cell_loop c t pos rowIdx y column_widths 0 0
    let y2 := y + height + TABLE_COL_GAP / 2
    let divider := Output.ofMesh
      (table_divider c scrolled cells.2 y2 c.theme.code_block_color)
    let y3 := y2 + TABLE_ROW_GAP / 2
    cells.1 ++ divider ++ row_loop c t pos scrolled column_widths hs (rowIdx + 1) y3

/-- The `Element::Table` arm of `render_elements` (renderer.rs lines
314–434): measure row heights and column widths, render the header cells,
draw the header divider (text color) after advancing `y` by the header height
plus half the row gap, then run the body-row loop (`row_heights.first()
.unwrap()` on an empty measurement becomes an error). -/
def render_table (c : Renderer) (pos size : ℚ × ℚ) (t : Table) :
    Except String Output :=
  let screen := c.screen_size
  let scrolled : ℚ × ℚ := (pos.1, pos.2 - c.scroll_y)
  let mbounds : ℚ × WithTop ℚ := (screen.1 - pos.1 - DEFAULT_MARGIN, ⊤)
  let row_heights := t.row_heights c.measurer pos mbounds c.zoom
  let column_widths := t.column_widths c.measurer pos mbounds c.zoom
  match row_heights with
  | [] => .error ("unwrap")
  | header_height :: body_heights =>
    match header_loop c t pos column_widths 0 0 with
    | .error e => .error e
    | .ok (header_out, x) =>
      let y := header_height + TABLE_ROW_GAP / 2
      let header_divider := Output.ofMesh
        (table_divider c scrolled x y c.theme.text_color)
      let y2 := y + TABLE_ROW_GAP / 2
      let body_out := row_loop c t pos scrolled column_widths body_heights 0 y2
      .ok (header_out ++ header_divider ++ body_out)

/-- The `Element::Spacer` arm of `render_elements` (renderer.rs lines
436–453): a visible spacer draws a thin horizontal rule centered in its
vertical span. -/
def render_spacer (c : Renderer) (pos size : ℚ × ℚ) (sp : Spacer) : Output :=
  if sp.visibile then
    Output.ofMesh
      (draw_rectangle c
        (Rect.new
          (DEFAULT_MARGIN,
            pos.2 - c.scroll_y + size.2 / 2 - 2 * c.hidpi_scale * c.zoom)
          (c.screen_size.1 - 2 * DEFAULT_MARGIN, 2 * c.hidpi_scale * c.zoom))
        c.theme.text_color)
  else Output.empty

mutual

/-- The `for` loop of `Renderer::render_elements` (renderer.rs lines
189–474): destructure the bounds (`context("Element not positioned")?`),
compute the scrolled position, `continue` past elements fully above the
viewport, `break` at the first element at or past the viewport bottom, and
otherwise dispatch on the element kind via `render_inner`. -/
def render_elements_loop (c : Renderer) :
    List Positioned → Except String Output
  | [] => .ok Output.empty
  | .mk inner bounds :: rest =>
    match bounds with
    | none => .error ("Element not positioned")
    | some r =>
      let scrolled : ℚ × ℚ := (r.pos.1, r.pos.2 - c.scroll_y)
      if scrolled.2 + r.size.2 ≤ 0 then
        render_elements_loop c rest
      else if c.screen_size.2 ≤ scrolled.2 then
        .ok Output.empty
      else
        match render_inner c r.pos r.size inner with
        | .error e => .error e
        | .ok o =>
          match render_elements_loop c rest with
          | .error e => .error e
          | .ok orest => .ok (o ++ orest)

/-- The per-kind dispatch of `Renderer::render_elements` (renderer.rs lines
199–473).  A `Row` recurses into its children; a `Section` draws the
disclosure marker beside the summary (`summary.bounds.as_ref().unwrap()`
becomes an error on absence), recurses into the summary as a one-element
list, and recurses into the body only when not hidden.  Both recursive calls
go through `render_elements` and therefore also redraw the scrollbar. -/
def render_inner (c : Renderer) (pos size : ℚ × ℚ) :
    Element → Except String Output
  | .TextBox tb => .ok (render_text_box c pos size tb)
  | .Table t => render_table c pos size t
  | .Image _ => .ok Output.empty
  | .Spacer sp => .ok (render_spacer c pos size sp)
  | .Row els => render_elements c els
  | .Section summary els hidden =>
    match summary with
    | none =>
      if hidden then .ok Output.empty
      else render_elements c els
    | some su =>
      match su.bounds with
      | none => .error ("unwrap")
      | some b =>
        let marker := Output.ofMesh
          (draw_hidden_marker c
            (b.pos.1 - 5 * c.hidpi_scale * c.zoom,
              b.pos.2 + b.size.2 / 2 - c.scroll_y)
            10 c.theme.text_color hidden)
        match render_elements c [su] with
        | .error e => .error e
        | .ok so =>
          if hidden then .ok (marker ++ so)
          else
            match render_elements c els with
            | .error e => .error e
            | .ok bo => .ok (marker ++ so ++ bo)

/-- Source `Renderer::render_elements` (renderer.rs lines 187–478): run the
element loop, then tessellate the scrollbar thumb — on every invocation,
recursive ones included. -/
def render_elements (c : Renderer) (elements : List Positioned) :
    Except String Output :=
  match render_elements_loop c elements with
  | .error e => .error e
  | .ok o => .ok (o ++ Output.ofMesh (draw_scrollbar c))

end

/-- One image bind-group/transform pair pushed by `image_bindgroups`: the
bind-group id together with the inputs of `ImageRenderer::vertex_buf`
(scrolled position, size, screen size). -/
structure BindPair where
  bind_group : Nat
  pos : ℚ × ℚ
  size : ℚ × ℚ
  screen_size : ℚ × ℚ
deriving DecidableEq, Repr

/-- The per-image body shared by the three image loops (renderer.rs lines
592–605, 611–629, 639–657): create the bind group if absent, then push the
pair when a bind group is present. -/
def image_pair (c : Renderer) (i : Image) (p size : ℚ × ℚ) : List BindPair :=
  let i2 := if i.bind_group.isNone then i.create_bind_group else i
  match i2.bind_group with
  | some bg => [⟨bg, p, size, c.screen_size⟩]
  | none => []

/-- The inner loop over a `Row`'s or `Section`'s children inside
`image_bindgroups` (renderer.rs lines 608–630 and 636–658): every child's
bounds are unwrapped and its scrolled position computed, and an image child
pushes its pair — with no viewport culling of its own. -/
def inner_images (c : Renderer) :
    List Positioned → Except String (List BindPair)
  | [] => .ok []
  | .mk inner bounds :: rest =>
    match bounds with
    | none => .error ("unwrap")
    | some r =>
      let p : ℚ × ℚ := (r.pos.1, r.pos.2 - c.scroll_y)
      let here : List BindPair :=
        match inner with
        | .Image i => image_pair c i p r.size
        | _ => []
      match inner_images c rest with
      | .ok more => .ok (here ++ more)
      | .error e => .error e

/-- The per-kind dispatch of `image_bindgroups` (renderer.rs lines 591–661):
a top-level image pushes its pair at its scrolled position `p`, a `Row` runs
the inner loop over all its children, a non-hidden `Section` runs the inner
loop over its body, a hidden `Section` is skipped (`continue`), and the other
kinds contribute nothing. -/
def image_inner (c : Renderer) (p size : ℚ × ℚ) :
    Element → Except String (List BindPair)
  | .Image i => .ok (image_pair c i p size)
  | .Row els => inner_images c els
  | .Section _ els hidden => if hidden then .ok [] else inner_images c els
  | _ => .ok []

/-- Source `Renderer::image_bindgroups` (renderer.rs lines 577–664): the
second, image-only walk.  Top-level elements are culled exactly as in
`render_elements` (`continue` above the viewport, `break` below it), then
dispatched through `image_inner`. -/
def image_bindgroups (c : Renderer) :
    List Positioned → Except String (List BindPair)
  | [] => .ok []
  | .mk inner bounds :: rest =>
    match bounds with
    | none => .error ("unwrap")
    | some r =>
      let p : ℚ × ℚ := (r.pos.1, r.pos.2 - c.scroll_y)
      if p.2 + r.size.2 ≤ 0 then
        image_bindgroups c rest
      else if c.screen_size.2 ≤ p.2 then
        .ok []
      else
        match image_inner c p r.size inner with
        | .error e => .error e
        | .ok h =>
          match image_bindgroups c rest with
          | .error e => .error e
          | .ok more => .ok (h ++ more)

/-- The outcome of one frame visible to this embedding: the uploaded mesh,
the queued glyph sections, the accumulated selection text and the image
bind-group pairs. -/
structure Frame where
  mesh : List MeshCmd
  queue : List GlyphSection
  selection_text : String
  images : List BindPair
deriving DecidableEq, Repr

/-- The pure skeleton of `Renderer::redraw` (renderer.rs lines 666–767):
clear the accumulators, run `render_elements` (its error propagates to the
caller via `?`), then collect the image bind groups; surface acquisition,
buffer upload and the three ordered draw passes are GPU-backend effects
outside the embedding. -/
def redraw (c : Renderer) (elements : List Positioned) :
    Except String Frame :=
  match render_elements c elements with
  | .error e => .error e
  | .ok o =>
    match image_bindgroups c elements with
    | .error e => .error e
    | .ok imgs => .ok ⟨o.mesh, o.queue, o.selection_text, imgs⟩

/-- C1: for a screen of positive width `w` and height `h`, the transform
`point` sends `(x, y)` into `[-1,1] × [-1,1]` if and only if `(x, y)` lies in
`[0,w] × [0,h]`, boundaries included. -/
theorem point_ndc_in_square_iff (x y w h : ℚ) (hw : 0 < w) (hh : 0 < h) :
    ((-1 ≤ (point x y (w, h)).1 ∧ (point x y (w, h)).1 ≤ 1) ∧
      (-1 ≤ (point x y (w, h)).2 ∧ (point x y (w, h)).2 ≤ 1)) ↔
    ((0 ≤ x ∧ x ≤ w) ∧ (0 ≤ y ∧ y ≤ h)) := by
  have hw' : w ≠ 0 := ne_of_gt hw
  have hh' : h ≠ 0 := ne_of_gt hh
  simp only [point]
  constructor
  · rintro ⟨⟨hx1, hx2⟩, ⟨hy1, hy2⟩⟩
    have hx1' : 0 ≤ x * (2 / w) := by linarith
    have hx2' : x * (2 / w) ≤ 2 := by linarith
    have hy1' : y * (2 / h) ≤ 2 := by linarith
    have hy2' : 0 ≤ y * (2 / h) := by linarith
    have h2w : (0 : ℚ) < 2 / w := by positivity
    have h2h : (0 : ℚ) < 2 / h := by positivity
    refine ⟨⟨(mul_nonneg_iff_of_pos_right h2w).mp hx1', ?_⟩,
      ⟨(mul_nonneg_iff_of_pos_right h2h).mp hy2', ?_⟩⟩
    · have : x * (2 / w) = 2 * x / w := by ring
      rw [this, div_le_iff hw] at hx2'
      linarith
    · have : y * (2 / h) = 2 * y / h := by ring
      rw [this, div_le_iff hh] at hy1'
      linarith
  · rintro ⟨⟨hx1, hx2⟩, ⟨hy1, hy2⟩⟩
    have hxw : x / w ≤ 1 := (div_le_one hw).mpr hx2
    have hxw0 : 0 ≤ x / w := div_nonneg hx1 (le_of_lt hw)
    have hyh : y / h ≤ 1 := (div_le_one hh).mpr hy2
    have hyh0 : 0 ≤ y / h := div_nonneg hy1 (le_of_lt hh)
    have ex : x * (2 / w) = 2 * (x / w) := by ring
    have ey : y * (2 / h) = 2 * (y / h) := by ring
    rw [ex, ey]
    constructor <;> constructor <;> linarith

/-- C1 witness: the theorem instantiated at `x = 3`, `y = 4`, screen `8 × 6`. -/
theorem point_ndc_in_square_iff_witness :
    (0 : ℚ) < 8 ∧ (0 : ℚ) < 6 ∧
      (((-1 ≤ (point 3 4 (8, 6)).1 ∧ (point 3 4 (8, 6)).1 ≤ 1) ∧
        (-1 ≤ (point 3 4 (8, 6)).2 ∧ (point 3 4 (8, 6)).2 ≤ 1)) ↔
      ((0 ≤ (3 : ℚ) ∧ (3 : ℚ) ≤ 8) ∧ (0 ≤ (4 : ℚ) ∧ (4 : ℚ) ≤ 6))) :=
  ⟨by norm_num, by norm_num,
    point_ndc_in_square_iff 3 4 8 6 (by norm_num) (by norm_num)⟩

/-- C3: for every requested value, the stored `scroll_y` lies in
`[0, max 0 (reserved_height - viewport_height)]`. -/
theorem set_scroll_y_clamped (scroll_y reserved_height screen_height : ℚ) :
    0 ≤ set_scroll_y scroll_y reserved_height screen_height ∧
      set_scroll_y scroll_y reserved_height screen_height ≤
        Max.max 0 (reserved_height - screen_height) := by
  unfold set_scroll_y
  constructor
  · exact le_max_right _ _
  · apply max_le
    · exact le_trans (min_le_right _ _) (le_max_right _ _)
    · exact le_max_left _ _

/-- Step equation for the element loop at a positioned element: destructured
bounds, then the two culling tests, then the dispatch. -/
theorem render_elements_loop_cons_some (c : Renderer) (inner : Element)
    (r : Rect) (rest : List Positioned) :
    render_elements_loop c (.mk inner (some r) :: rest) =
      if r.pos.2 - c.scroll_y + r.size.2 ≤ 0 then render_elements_loop c rest
      else if c.screen_size.2 ≤ r.pos.2 - c.scroll_y then .ok Output.empty
      else
        match render_inner c r.pos r.size inner with
        | .error e => .error e
        | .ok o =>
          match render_elements_loop c rest with
          | .error e => .error e
          | .ok orest => .ok (o ++ orest) := by
  conv_lhs => rw [render_elements_loop]

/-- The element loop on an empty list yields the empty accumulator. -/
theorem render_elements_loop_nil (c : Renderer) :
    render_elements_loop c [] = .ok Output.empty := by
  rw [render_elements_loop]

/-- Unfolding `render_elements` into the loop followed by the scrollbar. -/
theorem render_elements_eq (c : Renderer) (els : List Positioned) :
    render_elements c els =
      match render_elements_loop c els with
      | .error e => .error e
      | .ok o => .ok (o ++ Output.ofMesh (draw_scrollbar c)) := by
  rw [render_elements]

/-- A successful `render_elements` run is its loop's output followed by the
scrollbar command. -/
theorem render_elements_ok_split (c : Renderer) (els : List Positioned)
    (out : Output) (h : render_elements c els = .ok out) :
    ∃ o, render_elements_loop c els = .ok o ∧
      out = o ++ Output.ofMesh (draw_scrollbar c) := by
  rw [render_elements_eq] at h
  cases hl : render_elements_loop c els with
  | error e => rw [hl] at h; cases h
  | ok o => rw [hl] at h; exact ⟨o, rfl, (Except.ok.injEq _ _ ▸ h.symm :)⟩

/-- Every successful `render_elements` run contributes at least one scrollbar
command to the mesh. -/
theorem render_elements_scrollbar_count (c : Renderer) (els : List Positioned)
    (out : Output) (h : render_elements c els = .ok out) :
    1 ≤ out.mesh.count (draw_scrollbar c) := by
  obtain ⟨o, _, rfl⟩ := render_elements_ok_split c els out h
  simp [List.count_append]

/-- C2: in `render_elements`, an element whose scrolled bottom edge is at or
above the viewport top contributes nothing — no mesh command, no queued text,
no selection text (the frame renders as if the element were absent) — and the
first element whose scrolled top edge is at or past the viewport bottom stops
the walk: the frame renders as if that element and all remaining siblings
were absent. -/
theorem render_elements_culling (c : Renderer) (inner : Element) (r : Rect)
    (rest : List Positioned) :
    (r.pos.2 - c.scroll_y + r.size.2 ≤ 0 →
      render_elements c (.mk inner (some r) :: rest) =
        render_elements c rest) ∧
    (0 < r.pos.2 - c.scroll_y + r.size.2 →
      c.screen_size.2 ≤ r.pos.2 - c.scroll_y →
      render_elements c (.mk inner (some r) :: rest) =
        render_elements c []) := by
  constructor
  · intro h
    rw [render_elements_eq, render_elements_eq,
      render_elements_loop_cons_some, if_pos h]
  · intro h1 h2
    rw [render_elements_eq, render_elements_eq,
      render_elements_loop_cons_some, if_neg (by linarith), if_pos h2,
      render_elements_loop_nil]

/-- C8: an element reaching the walker without bounds aborts the walk, and
the whole frame, with the `"Element not positioned"` error — it is neither
skipped nor rendered with defaulted bounds, and the error propagates to the
caller of `redraw`. -/
theorem missing_bounds_fail_fast (c : Renderer) (inner : Element)
    (rest : List Positioned) :
    render_elements c (.mk inner none :: rest) =
      .error ("Element not positioned") ∧
    redraw c (.mk inner none :: rest) =
      .error ("Element not positioned") := by
  have hloop : render_elements_loop c (.mk inner none :: rest) =
      .error ("Element not positioned") := by
    rw [render_elements_loop]
  have h1 : render_elements c (.mk inner none :: rest) =
      .error ("Element not positioned") := by
    rw [render_elements_eq, hloop]
  refine ⟨h1, ?_⟩
  rw [redraw, h1]

/-- A fixed oracle used by witnesses: no rendered lines, no selection
geometry, constant measurements. -/
def sampleMeasurer : Measurer :=
  { render_lines := fun _ _ _ _ => []
    render_selection := fun _ _ _ _ _ => ([], "")
    measure_row := fun _ _ _ _ => 20
    measure_col := fun _ _ _ _ _ => 30 }

/-- A fixed theme used by witnesses. -/
def sampleTheme : Theme :=
  { background_color := (0, 0, 0, 1)
    text_color := (1, 1, 1, 1)
    select_color := (0, 0, 1, 1)
    checkbox_color := (0, 1, 0, 1)
    code_block_color := (1, 0, 0, 1)
    quote_block_color := (1, 1, 0, 1) }

/-- A fixed renderer context used by witnesses: an 800 × 600 screen, no
scroll, no selection, unit scale factors. -/
def sampleRenderer : Renderer :=
  { screen_size := (800, 600)
    scroll_y := 0
    hidpi_scale := 1
    zoom := 1
    theme := sampleTheme
    selection := none
    reserved_height := 600
    measurer := sampleMeasurer }

/-- C2 witness: on the sample context, a spacer at `y = -50` of height `20`
(scrolled bottom edge at `-30 ≤ 0`) is skipped, and a spacer at `y = 700`
(at or past the viewport bottom `600`) stops the walk. -/
theorem render_elements_culling_witness :
    ((-50 : ℚ) - sampleRenderer.scroll_y + 20 ≤ 0 ∧
      render_elements sampleRenderer
          [.mk (.Spacer ⟨true⟩) (some ⟨(0, -50), (10, 20)⟩),
            .mk (.Spacer ⟨false⟩) (some ⟨(0, 5), (10, 10)⟩)] =
        render_elements sampleRenderer
          [.mk (.Spacer ⟨false⟩) (some ⟨(0, 5), (10, 10)⟩)]) ∧
    (0 < (700 : ℚ) - sampleRenderer.scroll_y + 20 ∧
      sampleRenderer.screen_size.2 ≤ (700 : ℚ) - sampleRenderer.scroll_y ∧
      render_elements sampleRenderer
          [.mk (.Spacer ⟨true⟩) (some ⟨(0, 700), (10, 20)⟩)] =
        render_elements sampleRenderer []) :=
  ⟨⟨by norm_num [sampleRenderer],
      (render_elements_culling sampleRenderer (.Spacer ⟨true⟩)
        ⟨(0, -50), (10, 20)⟩ _).1 (by norm_num [sampleRenderer])⟩,
    by norm_num [sampleRenderer],
    by norm_num [sampleRenderer],
    (render_elements_culling sampleRenderer (.Spacer ⟨true⟩)
      ⟨(0, 700), (10, 20)⟩ _).2 (by norm_num [sampleRenderer])
      (by norm_num [sampleRenderer])⟩

/-- Inversion for a processed (un-culled) element of the loop: a successful
run splits into the element's own output and the remaining loop output. -/
theorem render_elements_loop_cons_processed (c : Renderer) (inner : Element)
    (r : Rect) (rest : List Positioned) (lo : Output)
    (h1 : ¬(r.pos.2 - c.scroll_y + r.size.2 ≤ 0))
    (h2 : ¬(c.screen_size.2 ≤ r.pos.2 - c.scroll_y))
    (h : render_elements_loop c (.mk inner (some r) :: rest) = .ok lo) :
    ∃ o orest, render_inner c r.pos r.size inner = .ok o ∧
      render_elements_loop c rest = .ok orest ∧ lo = o ++ orest := by
  rw [render_elements_loop_cons_some, if_neg h1, if_neg h2] at h
  cases hri : render_inner c r.pos r.size inner with
  | error e => rw [hri] at h; simp at h
  | ok o =>
    rw [hri] at h
    cases hrest : render_elements_loop c rest with
    | error e => rw [hrest] at h; simp at h
    | ok orest =>
      rw [hrest] at h
      simp only [Except.ok.injEq] at h
      exact ⟨o, orest, rfl, rfl, h.symm⟩

/-- A scrollbar command (a filled rectangle) is never a disclosure-marker
command (a triangle). -/
theorem draw_scrollbar_ne_marker (c c2 : Renderer) (pos : ℚ × ℚ) (size : ℚ)
    (color : Color) (hidden : Bool) :
    draw_scrollbar c ≠ draw_hidden_marker c2 pos size color hidden := by
  cases hidden <;> simp [draw_scrollbar, draw_rectangle, draw_hidden_marker]

/-- C10: the scrollbar thumb is tessellated at the end of every
`render_elements` invocation — every successful run's mesh ends with the
scrollbar command — so a processed `Row`, and a processed `Section` with a
summary, each add a nested invocation and the frame's mesh holds the
scrollbar command at least twice, not exactly once. -/
theorem scrollbar_every_invocation (c : Renderer) :
    (∀ (els : List Positioned) (out : Output),
      render_elements c els = .ok out →
      out.mesh.getLast? = some (draw_scrollbar c)) ∧
    (∀ (row_els : List Positioned) (r : Rect) (rest : List Positioned)
      (out : Output),
      0 < r.pos.2 - c.scroll_y + r.size.2 →
      r.pos.2 - c.scroll_y < c.screen_size.2 →
      render_elements c (.mk (.Row row_els) (some r) :: rest) = .ok out →
      2 ≤ out.mesh.count (draw_scrollbar c)) ∧
    (∀ (su : Positioned) (b : Rect) (body : List Positioned) (hidden : Bool)
      (r : Rect) (rest : List Positioned) (out : Output),
      su.bounds = some b →
      0 < r.pos.2 - c.scroll_y + r.size.2 →
      r.pos.2 - c.scroll_y < c.screen_size.2 →
      render_elements c (.mk (.Section (some su) body hidden) (some r) :: rest) =
        .ok out →
      2 ≤ out.mesh.count (draw_scrollbar c)) := by
  refine ⟨?_, ?_, ?_⟩
  · intro els out h
    obtain ⟨o, _, rfl⟩ := render_elements_ok_split c els out h
    simp
  · intro row_els r rest out h1 h2 h
    obtain ⟨lo, hl, rfl⟩ := render_elements_ok_split c _ out h
    obtain ⟨o, orest, hin, hrest, rfl⟩ :=
      render_elements_loop_cons_processed c _ r rest lo
        (by linarith) (by linarith) hl
    rw [render_inner] at hin
    have hcount := render_elements_scrollbar_count c row_els o hin
    simp [List.count_append]
    omega
  · intro su b body hidden r rest out hb h1 h2 h
    obtain ⟨lo, hl, rfl⟩ := render_elements_ok_split c _ out h
    obtain ⟨o, orest, hin, hrest, rfl⟩ :=
      render_elements_loop_cons_processed c _ r rest lo
        (by linarith) (by linarith) hl
    simp only [render_inner, hb] at hin
    cases hsu : render_elements c [su] with
    | error e => rw [hsu] at hin; simp at hin
    | ok so =>
      rw [hsu] at hin
      dsimp only at hin
      have hcount := render_elements_scrollbar_count c [su] so hsu
      have hne := draw_scrollbar_ne_marker c c
        (b.pos.1 - 5 * c.hidpi_scale * c.zoom,
          b.pos.2 + b.size.2 / 2 - c.scroll_y)
        10 c.theme.text_color hidden
      cases hidden with
      | true =>
        rw [if_pos rfl] at hin
        simp only [Except.ok.injEq] at hin
        subst hin
        simp [List.count_append, List.count_cons_of_ne hne]
        omega
      | false =>
        rw [if_neg (by simp)] at hin
        cases hbody : render_elements c body with
        | error e => rw [hbody] at hin; simp at hin
        | ok bo =>
          rw [hbody] at hin
          simp only [Except.ok.injEq] at hin
          subst hin
          simp [List.count_append, List.count_cons_of_ne hne]
          omega

/-- The frame output of the sample context rendering a single empty `Row`:
the nested invocation's scrollbar followed by the top-level one. -/
def sampleRowOut : Output :=
  ⟨[draw_scrollbar sampleRenderer, draw_scrollbar sampleRenderer], [], ""⟩

/-- C10 witness: on the sample context, a frame holding one empty `Row`
(processed, not culled) has a mesh that ends with the scrollbar command and
contains it twice. -/
theorem scrollbar_every_invocation_witness :
    (0 : ℚ) < 0 - sampleRenderer.scroll_y + 10 ∧
    (0 : ℚ) - sampleRenderer.scroll_y < sampleRenderer.screen_size.2 ∧
    render_elements sampleRenderer [.mk (.Row []) (some ⟨(0, 0), (10, 10)⟩)] =
      .ok sampleRowOut ∧
    2 ≤ sampleRowOut.mesh.count (draw_scrollbar sampleRenderer) :=
  have heval : render_elements sampleRenderer
      [.mk (.Row []) (some ⟨(0, 0), (10, 10)⟩)] = .ok sampleRowOut := by
    simp [render_elements, render_elements_loop, render_inner, sampleRowOut,
      sampleRenderer]
    norm_num
  ⟨by norm_num [sampleRenderer], by norm_num [sampleRenderer], heval,
    (scrollbar_every_invocation sampleRenderer).2.1 [] ⟨(0, 0), (10, 10)⟩ []
      sampleRowOut (by norm_num [sampleRenderer])
      (by norm_num [sampleRenderer]) heval⟩

/-- C7: toggling a `Section`'s hidden flag switches whether the body's output
is appended, but the summary's rendering — the output `so` of the recursive
`render_elements` invocation on the one-element summary list — is the same
value under both flags; and when hidden, the result does not depend on the
body subtree at all (no measurement, draw, or selection work on it).  Only
the disclosure-marker chevron and the body contribution differ between the
two frames. -/
theorem section_hidden_toggle (c : Renderer) (pos size : ℚ × ℚ)
    (su : Positioned) (b : Rect) (body : List Positioned) (so bo : Output)
    (hb : su.bounds = some b)
    (hs : render_elements c [su] = .ok so)
    (hbody : render_elements c body = .ok bo) :
    render_inner c pos size (.Section (some su) body true) =
      .ok (Output.ofMesh (draw_hidden_marker c
        (b.pos.1 - 5 * c.hidpi_scale * c.zoom,
          b.pos.2 + b.size.2 / 2 - c.scroll_y) 10 c.theme.text_color true) ++
        so) ∧
    render_inner c pos size (.Section (some su) body false) =
      .ok (Output.ofMesh (draw_hidden_marker c
        (b.pos.1 - 5 * c.hidpi_scale * c.zoom,
          b.pos.2 + b.size.2 / 2 - c.scroll_y) 10 c.theme.text_color false) ++
        so ++ bo) ∧
    render_inner c pos size (.Section (some su) body true) =
      render_inner c pos size (.Section (some su) [] true) := by
  refine ⟨?_, ?_, ?_⟩
  · simp [render_inner, hb, hs]
  · simp [render_inner, hb, hs, hbody]
  · simp [render_inner, hb, hs]

/-- A sample summary element: an image with bounds. -/
def sampleSummary : Positioned := .mk (.Image ⟨0, none⟩) (some ⟨(0, 0), (1, 1)⟩)

/-- A sample section body: one invisible spacer. -/
def sampleBody : List Positioned := [.mk (.Spacer ⟨false⟩) (some ⟨(0, 5), (5, 5)⟩)]

/-- The output of rendering either `[sampleSummary]` or `sampleBody` on the
sample context: just the scrollbar. -/
def sampleScrollbarOut : Output := ⟨[draw_scrollbar sampleRenderer], [], ""⟩

/-- C7 witness: the toggle theorem instantiated on the sample context. -/
theorem section_hidden_toggle_witness :
    sampleSummary.bounds = some ⟨(0, 0), (1, 1)⟩ ∧
    render_elements sampleRenderer [sampleSummary] = .ok sampleScrollbarOut ∧
    render_elements sampleRenderer sampleBody = .ok sampleScrollbarOut ∧
    render_inner sampleRenderer (0, 0) (10, 10)
        (.Section (some sampleSummary) sampleBody true) =
      .ok (Output.ofMesh (draw_hidden_marker sampleRenderer
        ((0 : ℚ) - 5 * sampleRenderer.hidpi_scale * sampleRenderer.zoom,
          (0 : ℚ) + 1 / 2 - sampleRenderer.scroll_y) 10
        sampleRenderer.theme.text_color true) ++ sampleScrollbarOut) :=
  have h1 : sampleSummary.bounds = some ⟨(0, 0), (1, 1)⟩ := rfl
  have h2 : render_elements sampleRenderer [sampleSummary] =
      .ok sampleScrollbarOut := by
    simp [render_elements, render_elements_loop, render_inner, sampleSummary,
      sampleScrollbarOut, sampleRenderer]
  have h3 : render_elements sampleRenderer sampleBody =
      .ok sampleScrollbarOut := by
    simp [render_elements, render_elements_loop, render_inner, sampleBody,
      render_spacer, sampleScrollbarOut, sampleRenderer]
  ⟨h1, h2, h3,
    (section_hidden_toggle sampleRenderer (0, 0) (10, 10) sampleSummary
      ⟨(0, 0), (1, 1)⟩ sampleBody sampleScrollbarOut sampleScrollbarOut
      h1 h2 h3).1⟩

/-- Skip step for the image walk: a top-level element fully above the
viewport contributes nothing. -/
theorem image_bindgroups_cons_skip (c : Renderer) (inner : Element) (r : Rect)
    (rest : List Positioned) (h : r.pos.2 - c.scroll_y + r.size.2 ≤ 0) :
    image_bindgroups c (.mk inner (some r) :: rest) =
      image_bindgroups c rest := by
  conv_lhs => rw [image_bindgroups]
  simp [h]

/-- Break step for the image walk: the first top-level element at or past the
viewport bottom stops the walk. -/
theorem image_bindgroups_cons_break (c : Renderer) (inner : Element) (r : Rect)
    (rest : List Positioned) (h1 : ¬(r.pos.2 - c.scroll_y + r.size.2 ≤ 0))
    (h2 : c.screen_size.2 ≤ r.pos.2 - c.scroll_y) :
    image_bindgroups c (.mk inner (some r) :: rest) = .ok [] := by
  conv_lhs => rw [image_bindgroups]
  simp [h1, h2]

/-- C4 counterexample: on the sample context, an image nested in a `Row` has
scrolled bottom edge `-100 - 0 + 50 = -50 ≤ 0` (at or above the viewport
top), yet `image_bindgroups` still pushes its bind-group/transform pair —
nested images are not individually culled. -/
theorem image_nested_culling_counterexample :
    ((-100 : ℚ) - sampleRenderer.scroll_y + 50 ≤ 0) ∧
    image_bindgroups sampleRenderer
        [.mk (.Row [.mk (.Image ⟨7, none⟩) (some ⟨(0, -100), (10, 50)⟩)])
          (some ⟨(0, 0), (800, 600)⟩)] =
      .ok [⟨7, (0, -100), (10, 50), (800, 600)⟩] := by
  constructor
  · norm_num [sampleRenderer]
  · simp [image_bindgroups, image_inner, inner_images, image_pair,
      Image.create_bind_group, sampleRenderer]
    norm_num

/-- C4 amended: `image_bindgroups` applies the main walker's viewport culling
only to the top-level elements of the list — a top-level element whose
scrolled bottom edge is at or above the viewport top contributes no
bind-group/transform pair, and the walk stops at the first top-level element
whose scrolled top edge is at or past the viewport bottom; images nested
inside `Row` and `Section` containers are not individually culled (see the
counterexample). -/
theorem image_bindgroups_top_culling (c : Renderer) (inner : Element)
    (r : Rect) (rest : List Positioned) :
    (r.pos.2 - c.scroll_y + r.size.2 ≤ 0 →
      image_bindgroups c (.mk inner (some r) :: rest) =
        image_bindgroups c rest) ∧
    (0 < r.pos.2 - c.scroll_y + r.size.2 →
      c.screen_size.2 ≤ r.pos.2 - c.scroll_y →
      image_bindgroups c (.mk inner (some r) :: rest) = .ok []) := by
  constructor
  · intro h
    exact image_bindgroups_cons_skip c inner r rest h
  · intro h1 h2
    exact image_bindgroups_cons_break c inner r rest (by linarith) h2

/-- C4 amended witness: on the sample context, a top-level image with
scrolled bottom edge `-30 ≤ 0` is skipped, and a top-level image at `y = 700`
(past the viewport bottom `600`) stops the walk. -/
theorem image_bindgroups_top_culling_witness :
    ((-50 : ℚ) - sampleRenderer.scroll_y + 20 ≤ 0 ∧
      image_bindgroups sampleRenderer
          [.mk (.Image ⟨3, none⟩) (some ⟨(0, -50), (10, 20)⟩),
            .mk (.Image ⟨4, none⟩) (some ⟨(0, 5), (10, 10)⟩)] =
        image_bindgroups sampleRenderer
          [.mk (.Image ⟨4, none⟩) (some ⟨(0, 5), (10, 10)⟩)]) ∧
    (0 < (700 : ℚ) - sampleRenderer.scroll_y + 20 ∧
      sampleRenderer.screen_size.2 ≤ (700 : ℚ) - sampleRenderer.scroll_y ∧
      image_bindgroups sampleRenderer
          [.mk (.Image ⟨3, none⟩) (some ⟨(0, 700), (10, 20)⟩)] = .ok []) :=
  ⟨⟨by norm_num [sampleRenderer],
      (image_bindgroups_top_culling sampleRenderer (.Image ⟨3, none⟩)
        ⟨(0, -50), (10, 20)⟩ _).1 (by norm_num [sampleRenderer])⟩,
    by norm_num [sampleRenderer],
    by norm_num [sampleRenderer],
    (image_bindgroups_top_culling sampleRenderer (.Image ⟨3, none⟩)
      ⟨(0, 700), (10, 20)⟩ []).2 (by norm_num [sampleRenderer])
      (by norm_num [sampleRenderer])⟩

/-- C9: a `TextBox` with an empty run list measures `(0, 0)` for every screen
position, wrap bounds and scale factor, and the result does not depend on the
glyph-measurement service at all (the service is never invoked). -/
theorem empty_text_box_size (glyph_bounds : GlyphSection → Option Rect)
    (tb : TextBox) (p : ℚ × ℚ) (b : ℚ × WithTop ℚ) (s : ℚ)
    (h : tb.texts = []) :
    TextBox.size glyph_bounds tb p b s = (0, 0) ∧
    ∀ gb2 : GlyphSection → Option Rect,
      TextBox.size glyph_bounds tb p b s = TextBox.size gb2 tb p b s := by
  constructor
  · simp [TextBox.size, h]
  · intro gb2
    simp [TextBox.size, h]

/-- C9 witness: the empty text box measured at `(5, 5)`, width bound `100`,
scale `2`, against a service that would return `none`. -/
theorem empty_text_box_size_witness :
    (⟨0, [], false, none, none, none⟩ : TextBox).texts = [] ∧
    TextBox.size (fun _ => none) ⟨0, [], false, none, none, none⟩ (5, 5)
      (100, ⊤) 2 = (0, 0) :=
  ⟨rfl,
    (empty_text_box_size (fun _ => none) ⟨0, [], false, none, none, none⟩
      (5, 5) (100, ⊤) 2 rfl).1⟩

/-- A filled rectangle is neither a tick polyline nor a stroked rectangle. -/
theorem MeshCmd.fill_not_tick_stroke (m : MeshCmd)
    (h : m.isFillRect = true) : m.isTick = false ∧ m.isStrokeRect = false := by
  cases m <;> simp_all [MeshCmd.isFillRect, MeshCmd.isTick,
    MeshCmd.isStrokeRect]

/-- The background component only emits filled rectangles. -/
theorem code_quote_bg_allFill (c : Renderer) (pos size : ℚ × ℚ)
    (tb : TextBox) :
    ∀ m ∈ (code_quote_bg_output c pos size tb).mesh, m.isFillRect = true := by
  intro m hm
  unfold code_quote_bg_output at hm
  simp only [apply_ite Output.mesh] at hm
  repeat' split at hm
  all_goals first
    | (simp at hm; subst hm; rfl)
    | simp at hm

/-- The quote-bar component only emits filled rectangles. -/
theorem quote_bars_allFill (c : Renderer) (pos size : ℚ × ℚ) (tb : TextBox) :
    ∀ m ∈ (quote_bars_output c pos size tb).mesh, m.isFillRect = true := by
  intro m hm
  unfold quote_bars_output at hm
  cases hq : tb.is_quote_block with
  | none => simp [hq] at hm
  | some nest =>
    simp [hq] at hm
    obtain ⟨n, _, rfl⟩ := hm
    rfl

/-- The underline component only emits filled rectangles. -/
theorem underlines_allFill (c : Renderer) (pos size : ℚ × ℚ) (tb : TextBox) :
    ∀ m ∈ (underlines_output c pos size tb).mesh, m.isFillRect = true := by
  intro m hm
  unfold underlines_output at hm
  simp only [List.mem_map] at hm
  obtain ⟨line, _, rfl⟩ := hm
  rfl

/-- The selection component only emits filled rectangles. -/
theorem selection_output_allFill (c : Renderer) (tb : TextBox)
    (qpos : ℚ × ℚ) (bounds : ℚ × WithTop ℚ) :
    ∀ m ∈ (selection_output c tb qpos bounds).mesh, m.isFillRect = true := by
  intro m hm
  unfold selection_output at hm
  cases hs : c.selection with
  | none => simp [hs] at hm
  | some sel =>
    simp only [hs, List.mem_map] at hm
    obtain ⟨rect, _, rfl⟩ := hm
    rfl

/-- The mesh of the `TextBox` arm is the concatenation of its five
mesh-producing components, in source order. -/
theorem render_text_box_mesh (c : Renderer) (pos size : ℚ × ℚ)
    (tb : TextBox) :
    (render_text_box c pos size tb).mesh =
      (code_quote_bg_output c pos size tb).mesh ++
        ((quote_bars_output c pos size tb).mesh ++
          ((checkbox_output c pos size tb).mesh ++
            ((underlines_output c pos size tb).mesh ++
              (selection_output c tb pos (text_box_bounds c pos)).mesh))) := by
  simp [render_text_box]

/-- C5: for a checkbox `TextBox` whose decoration is not suppressed, the mesh
holds — contiguously and in this order — the check-fill rectangle, the tick
polyline and the stroked border when checked, and just the stroked border
when unchecked; everything else the text box emits (backgrounds, quote bars,
underlines, selection highlights) is a filled rectangle, so the tick and the
stroked border occur exactly once and the check fill immediately precedes
them.  When the border's right edge would not stay left of the right margin
(`mx.1 < screen_width - DEFAULT_MARGIN` fails), the whole decoration is
suppressed: no tick and no stroked rectangle appear at all. -/
theorem checkbox_rendering (c : Renderer) (pos size : ℚ × ℚ) (tb : TextBox)
    (checked : Bool) (box_size : ℚ) (mn mx : ℚ × ℚ)
    (hcb : tb.is_checkbox = some checked)
    (hbs : box_size =
      (tb.texts.head?.map Text.size).getD 16 * c.hidpi_scale * c.zoom * (3/4))
    (hmn : mn = (pos.1 - box_size - 10,
      pos.2 - c.scroll_y + size.2 / 2 - box_size / 2))
    (hmx : mx = (pos.1 - 10, pos.2 - c.scroll_y + size.2 / 2 + box_size / 2)) :
    (mx.1 < c.screen_size.1 - DEFAULT_MARGIN →
      ∃ pre post,
        (render_text_box c pos size tb).mesh =
          pre ++
            ((if checked then
              [draw_rectangle c (Rect.from_min_max mn mx)
                  c.theme.checkbox_color,
                draw_tick mn box_size c.theme.text_color 4,
                stroke_rectangle (Rect.from_min_max mn mx)
                  c.theme.text_color 2]
            else
              [stroke_rectangle (Rect.from_min_max mn mx)
                c.theme.text_color 2]) ++ post) ∧
        (∀ m ∈ pre, m.isTick = false ∧ m.isStrokeRect = false) ∧
        (∀ m ∈ post, m.isTick = false ∧ m.isStrokeRect = false)) ∧
    (¬ mx.1 < c.screen_size.1 - DEFAULT_MARGIN →
      ∀ m ∈ (render_text_box c pos size tb).mesh,
        m.isTick = false ∧ m.isStrokeRect = false) := by
  subst hbs
  subst hmn
  subst hmx
  have hco : checkbox_output c pos size tb =
      (if (pos.1 - 10 : ℚ) < c.screen_size.1 - DEFAULT_MARGIN then
        (if checked then
          ⟨[draw_rectangle c
              (Rect.from_min_max
                (pos.1 -
                    (tb.texts.head?.map Text.size).getD 16 * c.hidpi_scale *
                      c.zoom * (3/4) - 10,
                  pos.2 - c.scroll_y + size.2 / 2 -
                    (tb.texts.head?.map Text.size).getD 16 * c.hidpi_scale *
                      c.zoom * (3/4) / 2)
                (pos.1 - 10,
                  pos.2 - c.scroll_y + size.2 / 2 +
                    (tb.texts.head?.map Text.size).getD 16 * c.hidpi_scale *
                      c.zoom * (3/4) / 2))
              c.theme.checkbox_color,
            draw_tick
              (pos.1 -
                  (tb.texts.head?.map Text.size).getD 16 * c.hidpi_scale *
                    c.zoom * (3/4) - 10,
                pos.2 - c.scroll_y + size.2 / 2 -
                  (tb.texts.head?.map Text.size).getD 16 * c.hidpi_scale *
                    c.zoom * (3/4) / 2)
              ((tb.texts.head?.map Text.size).getD 16 * c.hidpi_scale *
                c.zoom * (3/4))
              c.theme.text_color 4], [], ""⟩
        else Output.empty) ++
          Output.ofMesh
            (stroke_rectangle
              (Rect.from_min_max
                (pos.1 -
                    (tb.texts.head?.map Text.size).getD 16 * c.hidpi_scale *
                      c.zoom * (3/4) - 10,
                  pos.2 - c.scroll_y + size.2 / 2 -
                    (tb.texts.head?.map Text.size).getD 16 * c.hidpi_scale *
                      c.zoom * (3/4) / 2)
                (pos.1 - 10,
                  pos.2 - c.scroll_y + size.2 / 2 +
                    (tb.texts.head?.map Text.size).getD 16 * c.hidpi_scale *
                      c.zoom * (3/4) / 2))
              c.theme.text_color 2)
      else Output.empty) := by
    simp only [checkbox_output, hcb]
  constructor
  · intro hvis
    refine ⟨(code_quote_bg_output c pos size tb).mesh ++
        (quote_bars_output c pos size tb).mesh,
      (underlines_output c pos size tb).mesh ++
        (selection_output c tb pos (text_box_bounds c pos)).mesh,
      ?_, ?_, ?_⟩
    · rw [render_text_box_mesh, hco, if_pos hvis]
      cases checked <;> simp [List.append_assoc]
    · intro m hm
      rcases List.mem_append.mp hm with h1 | h1
      · exact MeshCmd.fill_not_tick_stroke m
          (code_quote_bg_allFill c pos size tb m h1)
      · exact MeshCmd.fill_not_tick_stroke m
          (quote_bars_allFill c pos size tb m h1)
    · intro m hm
      rcases List.mem_append.mp hm with h1 | h1
      · exact MeshCmd.fill_not_tick_stroke m
          (underlines_allFill c pos size tb m h1)
      · exact MeshCmd.fill_not_tick_stroke m
          (selection_output_allFill c tb pos (text_box_bounds c pos) m h1)
  · intro hsup m hm
    rw [render_text_box_mesh, hco, if_neg hsup] at hm
    simp only [Output.empty_def, List.append_nil, List.nil_append,
      List.mem_append] at hm
    rcases hm with h1 | h1 | h1 | h1
    · exact MeshCmd.fill_not_tick_stroke m
        (code_quote_bg_allFill c pos size tb m h1)
    · exact MeshCmd.fill_not_tick_stroke m
        (quote_bars_allFill c pos size tb m h1)
    · exact MeshCmd.fill_not_tick_stroke m
        (underlines_allFill c pos size tb m h1)
    · exact MeshCmd.fill_not_tick_stroke m
        (selection_output_allFill c tb pos (text_box_bounds c pos) m h1)

/-- A checked checkbox text box with no runs. -/
def sampleCheckedBox : TextBox := ⟨0, [], false, none, some true, none⟩

/-- C5 witness: a checked checkbox at `(200, 50)`, box size `12`, square
`(178, 54)–(190, 66)`, visible (`190 < 700`), on the sample context. -/
theorem checkbox_rendering_witness :
    sampleCheckedBox.is_checkbox = some true ∧
    ((190 : ℚ) < sampleRenderer.screen_size.1 - DEFAULT_MARGIN) ∧
    ∃ pre post,
      (render_text_box sampleRenderer (200, 50) (0, 20) sampleCheckedBox).mesh =
        pre ++
          ((if true then
            [draw_rectangle sampleRenderer
                (Rect.from_min_max (178, 54) (190, 66))
                sampleRenderer.theme.checkbox_color,
              draw_tick (178, 54) 12 sampleRenderer.theme.text_color 4,
              stroke_rectangle (Rect.from_min_max (178, 54) (190, 66))
                sampleRenderer.theme.text_color 2]
          else
            [stroke_rectangle (Rect.from_min_max (178, 54) (190, 66))
              sampleRenderer.theme.text_color 2]) ++ post) ∧
        (∀ m ∈ pre, m.isTick = false ∧ m.isStrokeRect = false) ∧
        (∀ m ∈ post, m.isTick = false ∧ m.isStrokeRect = false) :=
  ⟨rfl, by norm_num [sampleRenderer, DEFAULT_MARGIN],
    (checkbox_rendering sampleRenderer (200, 50) (0, 20) sampleCheckedBox
      true 12 (178, 54) (190, 66) rfl
      (by norm_num [sampleCheckedBox, sampleRenderer])
      (by norm_num [sampleRenderer])
      (by norm_num [sampleRenderer])).1
      (by norm_num [sampleRenderer, DEFAULT_MARGIN])⟩

/-- With no active selection, the selection block is a no-op. -/
theorem selection_output_none (c : Renderer) (tb : TextBox) (qpos : ℚ × ℚ)
    (bounds : ℚ × WithTop ℚ) (h : c.selection = none) :
    selection_output c tb qpos bounds = Output.empty := by
  simp [selection_output, h]

/-- The modelled column-width list has one entry per column. -/
theorem column_widths_length (t : Table) (m : Measurer) (pos : ℚ × ℚ)
    (bounds : ℚ × WithTop ℚ) (zoom : ℚ) :
    (t.column_widths m pos bounds zoom).length = t.headers.length := by
  simp [Table.column_widths]

/-- Header-loop specification under no selection: when every referenced
header exists, the loop succeeds, emits no mesh, queues one section per
column width, and records no selection text. -/
theorem header_loop_spec (c : Renderer) (t : Table) (pos : ℚ × ℚ)
    (hsel : c.selection = none) :
    ∀ (ws : List ℚ) (col : Nat) (x : ℚ),
      col + ws.length ≤ t.headers.length →
      ∃ o xf, header_loop c t pos ws col x = .ok (o, xf) ∧
        o.mesh = [] ∧ o.queue.length = ws.length ∧
        o.selection_text = "" := by
  intro ws
  induction ws with
  | nil =>
    intro col x _
    exact ⟨Output.empty, x, rfl, rfl, rfl, rfl⟩
  | cons w ws ih =>
    intro col x h
    have hcol : col < t.headers.length := by
      simp only [List.length_cons] at h
      omega
    have htb : t.headers.get? col = some (t.headers.get ⟨col, hcol⟩) :=
      List.get?_eq_get hcol
    obtain ⟨o, xf, hrec, hm, hq, hs⟩ :=
      ih (col + 1) (x + w + TABLE_COL_GAP)
        (by simp only [List.length_cons] at h; omega)
    refine ⟨(Output.ofQueue
        ((t.headers.get ⟨col, hcol⟩).glyph_section (pos.1 + x, pos.2)
          (Min.min (c.screen_size.1 - pos.1 - x - DEFAULT_MARGIN)
            (c.screen_size.1 - DEFAULT_MARGIN), ⊤) c.zoom) ++
        selection_output c (t.headers.get ⟨col, hcol⟩) (pos.1 + x, pos.2)
          (Min.min (c.screen_size.1 - pos.1 - x - DEFAULT_MARGIN)
            (c.screen_size.1 - DEFAULT_MARGIN), ⊤)) ++ o, xf, ?_, ?_, ?_, ?_⟩
    · simp only [header_loop, htb, hrec]
    · simp [selection_output_none c _ _ _ hsel, hm]
    · simp [selection_output_none c _ _ _ hsel, hq]
    · simp [selection_output_none c _ _ _ hsel, hs]

/-- Cell-loop specification under no selection: when the row exists and every
referenced cell exists, the loop emits no mesh, queues one section per column
width, and records no selection text. -/
theorem cell_loop_spec (c : Renderer) (t : Table) (pos : ℚ × ℚ)
    (rowIdx : Nat) (y : ℚ) (row : List TextBox)
    (hsel : c.selection = none) (hrow : t.rows.get? rowIdx = some row) :
    ∀ (ws : List ℚ) (col : Nat) (x : ℚ),
      col + ws.length ≤ row.length →
      (cell_loop c t pos rowIdx y ws col x).1.mesh = [] ∧
      (cell_loop c t pos rowIdx y ws col x).1.queue.length = ws.length ∧
      (cell_loop c t pos rowIdx y ws col x).1.selection_text = "" := by
  intro ws
  induction ws with
  | nil =>
    intro col x _
    exact ⟨rfl, rfl, rfl⟩
  | cons w ws ih =>
    intro col x h
    have hcol : col < row.length := by
      simp only [List.length_cons] at h
      omega
    have hcell : row.get? col = some (row.get ⟨col, hcol⟩) :=
      List.get?_eq_get hcol
    obtain ⟨hm, hq, hs⟩ :=
      ih (col + 1) (x + w + TABLE_COL_GAP)
        (by simp only [List.length_cons] at h; omega)
    refine ⟨?_, ?_, ?_⟩
    · simp only [cell_loop, hrow, hcell]
      simp [selection_output_none c _ _ _ hsel, hm]
    · simp only [cell_loop, hrow, hcell]
      simp [selection_output_none c _ _ _ hsel, hq]
    · simp only [cell_loop, hrow, hcell]
      simp [selection_output_none c _ _ _ hsel, hs]

/-- Row-loop specification under no selection: with one existing, full row
per remaining height, the loop emits exactly one divider (a filled rectangle)
per height, queues one section per cell, and records no selection text. -/
theorem row_loop_spec (c : Renderer) (t : Table) (pos scrolled : ℚ × ℚ)
    (cw : List ℚ) (hsel : c.selection = none) :
    ∀ (hs : List ℚ) (rowIdx : Nat) (y : ℚ),
      (∀ i < hs.length, ∃ row, t.rows.get? (rowIdx + i) = some row ∧
        cw.length ≤ row.length) →
      (row_loop c t pos scrolled cw hs rowIdx y).mesh.length = hs.length ∧
      (∀ m ∈ (row_loop c t pos scrolled cw hs rowIdx y).mesh,
        m.isFillRect = true) ∧
      (row_loop c t pos scrolled cw hs rowIdx y).queue.length =
        hs.length * cw.length ∧
      (row_loop c t pos scrolled cw hs rowIdx y).selection_text = "" := by
  intro hs
  induction hs with
  | nil =>
    intro rowIdx y _
    exact ⟨rfl, (by intro m hm; cases hm), (by simp [row_loop]), rfl⟩
  | cons height hs ih =>
    intro rowIdx y hrows
    obtain ⟨row, hrow, hlen⟩ := hrows 0 (by simp)
    rw [Nat.add_zero] at hrow
    obtain ⟨hcm, hcq, hcs⟩ :=
      cell_loop_spec c t pos rowIdx y row hsel hrow cw 0 0
        (by omega)
    obtain ⟨hrm, hrf, hrq, hrs⟩ :=
      ih (rowIdx + 1) (y + height + TABLE_COL_GAP / 2 + TABLE_ROW_GAP / 2)
        (by
          intro i hi
          obtain ⟨row2, hrow2, hlen2⟩ := hrows (i + 1) (by simp; omega)
          refine ⟨row2, ?_, hlen2⟩
          rw [show rowIdx + 1 + i = rowIdx + (i + 1) from by omega]
          exact hrow2)
    refine ⟨?_, ?_, ?_, ?_⟩
    · simp only [row_loop]
      simp [hcm, hrm]
    · intro m hm
      simp only [row_loop] at hm
      simp [hcm] at hm
      rcases hm with hm | hm
      · subst hm; rfl
      · exact hrf m hm
    · simp only [row_loop]
      simp [hcq, hrq]
      ring
    · simp only [row_loop]
      simp [hcs, hrs]

/-- C6: for a table with `r` body rows and `c` columns (one column per
header), rendered with no active selection and no sparse rows, the walker
emits exactly `r + 1` divider rectangles — all filled rectangles, one after
the header row and one after each body row — and queues exactly
`(r + 1) * c` text submissions.  (A sparse row would only lose the queue
submissions of its absent cells: the cell loop skips a missing
`row.get(col)` without emitting anything.) -/
theorem table_grid (c : Renderer) (pos size : ℚ × ℚ) (t : Table)
    (out : Output) (hsel : c.selection = none)
    (hfull : ∀ row ∈ t.rows, t.headers.length ≤ row.length)
    (h : render_table c pos size t = .ok out) :
    out.mesh.length = t.rows.length + 1 ∧
    (∀ m ∈ out.mesh, m.isFillRect = true) ∧
    out.queue.length = (t.rows.length + 1) * t.headers.length := by
  have hcw : (t.column_widths c.measurer pos
      (c.screen_size.1 - pos.1 - DEFAULT_MARGIN, ⊤) c.zoom).length =
      t.headers.length :=
    column_widths_length t c.measurer pos _ c.zoom
  obtain ⟨ho, xf, hhl, hhm, hhq, hhs⟩ :=
    header_loop_spec c t pos hsel
      (t.column_widths c.measurer pos
        (c.screen_size.1 - pos.1 - DEFAULT_MARGIN, ⊤) c.zoom) 0 0
      (by rw [hcw]; omega)
  obtain ⟨hrm, hrf, hrq, hrs⟩ :=
    row_loop_spec c t pos (pos.1, pos.2 - c.scroll_y)
      (t.column_widths c.measurer pos
        (c.screen_size.1 - pos.1 - DEFAULT_MARGIN, ⊤) c.zoom) hsel
      (t.rows.map (fun row =>
        c.measurer.measure_row row pos
          (c.screen_size.1 - pos.1 - DEFAULT_MARGIN, ⊤) c.zoom)) 0
      (c.measurer.measure_row t.headers pos
          (c.screen_size.1 - pos.1 - DEFAULT_MARGIN, ⊤) c.zoom +
        TABLE_ROW_GAP / 2 + TABLE_ROW_GAP / 2)
      (by
        intro i hi
        simp only [List.length_map] at hi
        refine ⟨t.rows.get ⟨i, hi⟩, ?_, ?_⟩
        · rw [Nat.zero_add]
          exact List.get?_eq_get hi
        · rw [hcw]
          exact hfull _ (t.rows.get_mem _ _))
  simp only [render_table, Table.row_heights] at h
  rw [hhl] at h
  dsimp only at h
  simp only [Except.ok.injEq] at h
  subst h
  refine ⟨?_, ?_, ?_⟩
  · simp [hhm, hrm]
  · intro m hm
    simp only [Output.append_def, Output.ofMesh_def, List.mem_append,
      hhm, List.not_mem_nil, List.mem_singleton, false_or] at hm
    rcases hm with hm | hm
    · subst hm; rfl
    · exact hrf m hm
  · have hmul : (t.rows.length + 1) * t.headers.length =
        t.rows.length * t.headers.length + t.headers.length := by ring
    simp [hhq, hrq, hcw, hmul]
    ring

/-- A text box with no runs and no flags. -/
def emptyTextBox : TextBox := ⟨0, [], false, none, none, none⟩

/-- A 2-column table with one full body row. -/
def sampleTable : Table :=
  ⟨[emptyTextBox, emptyTextBox], [[emptyTextBox, emptyTextBox]]⟩

/-- The output of rendering `sampleTable` at `(10, 10)` on the sample
context. -/
def sampleTableOut : Output :=
  match render_table sampleRenderer (10, 10) (0, 0) sampleTable with
  | .ok o => o
  | .error _ => Output.empty

/-- C6 witness: the sample 2-column, 1-row table renders with no selection,
full rows, `2` dividers, and `4` queued sections. -/
theorem table_grid_witness :
    sampleRenderer.selection = none ∧
    (∀ row ∈ sampleTable.rows, sampleTable.headers.length ≤ row.length) ∧
    render_table sampleRenderer (10, 10) (0, 0) sampleTable =
      .ok sampleTableOut ∧
    sampleTableOut.mesh.length = sampleTable.rows.length + 1 ∧
    (∀ m ∈ sampleTableOut.mesh, m.isFillRect = true) ∧
    sampleTableOut.queue.length =
      (sampleTable.rows.length + 1) * sampleTable.headers.length :=
  have hfull : ∀ row ∈ sampleTable.rows,
      sampleTable.headers.length ≤ row.length := by
    intro row hr
    simp [sampleTable] at hr
    simp [hr, sampleTable]
  have heq : render_table sampleRenderer (10, 10) (0, 0) sampleTable =
      .ok sampleTableOut := rfl
  have hmain := table_grid sampleRenderer (10, 10) (0, 0) sampleTable
    sampleTableOut rfl hfull heq
  ⟨rfl, hfull, heq, hmain.1, hmain.2.1, hmain.2.2⟩
